import Mathlib

/-!
Shallow embedding of `src/main.py`, a small HTTP backend with four
interesting handlers: `create_demo_request` (POST /api/demo-requests),
`health` (GET /api/health), `get_metrics` (GET /api/metrics) and
`test_database` (GET /test).

The backing `database` module is not part of the sources; its interface
(the adapter handle `db` and the `create_document` operation) is modelled
from the spec, section 2: `createDocument(collection, data) -> id`, and an
optional live handle supporting `countDocuments` and `listCollectionNames`.
Fallible Python operations (which raise exceptions) are modelled as
`Except String` values carrying the exception message `str(e)`.
-/

namespace Backend

/-- A metric value is heterogeneous by design: some metrics are literal
counts, others pre-formatted text such as "1.8M" (spec section 3). -/
inductive MetricValue where
  | num (n : Nat)
  | text (s : String)
deriving DecidableEq, Repr

/-- One entry of the metrics list: `{"label": .., "value": .., "hint": ..}`. -/
structure Metric where
  label : String
  value : MetricValue
  hint : String
deriving DecidableEq, Repr

/-- Modelled from the spec: the Storage Adapter live handle `db` provided by
the absent `database` module. `name` models the optional `name` attribute
(`hasattr(db, 'name')`); `count_documents` models
`db[collection].count_documents(\x7b\x7d)` and `list_collection_names` models
`db.list_collection_names()`, each raising (`Except.error`) or returning a
value. A constructed handle is truthy in Python boolean contexts. -/
structure DbHandle where
  name : Option String
  count_documents : String → Except String Nat
  list_collection_names : Except String (List String)

/-- Pydantic model `DemoRequestIn` after validation succeeded (main.py
lines 30 to 34). -/
structure DemoRequestIn where
  email : String
  name : Option String
  company : Option String
  message : Option String
deriving DecidableEq, Repr

/-- Pydantic model `DemoRequestOut` (main.py lines 36 to 40): note there is
no `message` field, so `message` is structurally omitted from the output. -/
structure DemoRequestOut where
  id : String
  email : String
  name : Option String
  company : Option String
deriving DecidableEq, Repr

/-- The document dict produced by `payload.model_dump()`: all four input
fields, including `message`. -/
structure DemoDoc where
  email : String
  name : Option String
  company : Option String
  message : Option String
deriving DecidableEq, Repr

/-- `payload.model_dump()` (main.py line 71). -/
def model_dump (p : DemoRequestIn) : DemoDoc :=
  ⟨p.email, p.name, p.company, p.message⟩

/-- A persistence call: the logical collection name and the document. -/
abbrev WriteCall := String × DemoDoc

/-- Responses the demo-request endpoint can produce: a success body,
an `HTTPException(status_code, detail)`, or a pydantic validation
rejection (produced before the handler runs) naming the offending field. -/
inductive ApiResponse where
  | success (out : DemoRequestOut)
  | httpError (status : Nat) (detail : String)
  | validationError (field : String)
deriving DecidableEq, Repr

/-- The observable outcome of a request: the response, the persistence
calls attempted, and the documents fully written (the storage layer writes
a document atomically or not at all, spec section 5, so a call completes
as a write exactly when the create operation returns `ok`). -/
structure HandlerOutcome where
  response : ApiResponse
  calls : List WriteCall
  written : List WriteCall
deriving DecidableEq, Repr

/-- `create_demo_request` (main.py lines 67 to 81): dump the payload,
persist it under the fixed collection name "demorequest", and on success
return `id` plus `\x7bemail, name, company\x7d`; any exception `e` becomes
`HTTPException(status_code=500, detail=str(e))`. -/
def create_demo_request (create_document : String → DemoDoc → Except String String)
    (payload : DemoRequestIn) : HandlerOutcome :=
  let data := model_dump payload
  match create_document "demorequest" data with
  | Except.ok new_id =>
      { response := ApiResponse.success
          ⟨new_id, payload.email, payload.name, payload.company⟩,
        calls := [("demorequest", data)],
        written := [("demorequest", data)] }
  | Except.error e =>
      { response := ApiResponse.httpError 500 e,
        calls := [("demorequest", data)],
        written := [] }

/-- The message of the fallback helpers installed when importing the
`database` module fails (main.py lines 10 to 15). -/
def db_unavailable_detail : String :=
  "Database not available. Check DATABASE_URL and DATABASE_NAME env vars."

/-- Fallback `create_document` (main.py lines 12 to 13): unconditionally
raises. -/
def fallback_create_document : String → DemoDoc → Except String String :=
  fun _ _ => Except.error db_unavailable_detail

/-- Fallback adapter handle (main.py line 11): `db = None`. -/
def fallback_db : Option DbHandle := none

/-- The raw inbound JSON body of POST /api/demo-requests, before
validation. -/
structure RawDemoRequest where
  email : String
  name : Option String
  company : Option String
  message : Option String
deriving DecidableEq, Repr

/-- Modelled from the spec: the `EmailStr` validator (pydantic and the
email-validator library, external to this repository). Spec section 4.1:
the email must be local-part@domain with at least one dot in the domain and
no unescaped whitespace; reject otherwise naming the offending field. -/
def is_valid_email (s : String) : Bool :=
  let cs := s.toList
  let dom := (cs.dropWhile (fun c => c != '@')).tail
  cs.contains '@' &&
  !(cs.takeWhile (fun c => c != '@')).isEmpty &&
  !dom.isEmpty &&
  dom.contains '.' &&
  !(cs.any (fun c => c.isWhitespace))

/-- The Validation Layer for `DemoRequestIn`: either a validated value or
a rejection naming the offending field ("email"). The optional text fields
are passed through unvalidated (spec section 4.1). -/
def validate_demo_request (raw : RawDemoRequest) : Except String DemoRequestIn :=
  if is_valid_email raw.email then
    Except.ok ⟨raw.email, raw.name, raw.company, raw.message⟩
  else
    Except.error "email"

/-- The full POST /api/demo-requests pipeline: pydantic validation runs
before the handler; a rejected payload never reaches `create_demo_request`,
so no persistence call is attempted. -/
def post_demo_requests (create_document : String → DemoDoc → Except String String)
    (raw : RawDemoRequest) : HandlerOutcome :=
  match validate_demo_request raw with
  | Except.ok payload => create_demo_request create_document payload
  | Except.error field =>
      { response := ApiResponse.validationError field, calls := [], written := [] }

/-- Response body of GET /api/health. -/
structure HealthStatus where
  status : String
  database : String
  version : String
deriving DecidableEq, Repr

/-- `health` (main.py lines 56 to 62): `bool(db) and "available" or
"unavailable"`. The truthiness of a constructed handle is modelled from the
spec (a present adapter handle is truthy); the handle operations are never
invoked. -/
def health (db : Option DbHandle) : HealthStatus :=
  { status := "ok",
    database := if db.isSome then "available" else "unavailable",
    version := "1.0.0" }

/-- The fixed baseline metrics (main.py lines 89 to 94). -/
def base_metrics : List Metric :=
  [ ⟨"EHR Feeds", MetricValue.num 142, "+12 this week"⟩,
    ⟨"Claims/day", MetricValue.text "1.8M", "EDI 837/835"⟩,
    ⟨"Avg. Latency", MetricValue.text "320ms", "stream pipelines"⟩,
    ⟨"AI Models", MetricValue.num 28, "risk & quality"⟩ ]

/-- Response body of GET /api/metrics. -/
structure MetricsOut where
  metrics : List Metric
deriving DecidableEq, Repr

/-- `get_metrics` (main.py lines 86 to 106): start from the baseline; when
the handle is present (truthy), try the live count and append a fifth
metric on success; any failure during the count is swallowed by the inner
`except: pass`, and the outer `except: pass` guards the truthiness test,
so the handler always returns. -/
def get_metrics (db : Option DbHandle) : MetricsOut :=
  match db with
  | some h =>
      match h.count_documents "demorequest" with
      | Except.ok demo_count =>
          { metrics := base_metrics ++
              [⟨"Demo Requests", MetricValue.num demo_count, "total received"⟩] }
      | Except.error _ => { metrics := base_metrics }
  | none => { metrics := base_metrics }

/-- Response body of GET /test. The two env fields start as Python `None`
and are overwritten with strings before returning, hence `Option String`. -/
structure DiagnosticsReport where
  backend : String
  database : String
  database_url : Option String
  database_name : Option String
  connection_status : String
  collections : List String
deriving DecidableEq, Repr

/-- Python truthiness of an `os.getenv` result: `None` is falsy and so is
the empty string, so an environment variable that is present but empty
tests false. -/
def python_truthy (v : Option String) : Bool :=
  match v with
  | some s => !s.isEmpty
  | none => false

/-- `test_database` (main.py lines 111 to 141). `database_url_env` and
`database_name_env` are `os.getenv("DATABASE_URL")` and
`os.getenv("DATABASE_NAME")`. The outer `except` branch (line 137) is
unreachable in this model: `hasattr`, attribute access and the guarded
listing call are the only operations inside it and none escapes. The final
two assignments (lines 139 and 140) unconditionally overwrite the env
fields, whatever the adapter branch put there. -/
def test_database (database_url_env database_name_env : Option String)
    (db : Option DbHandle) : DiagnosticsReport :=
  let response : DiagnosticsReport :=
    { backend := "✅ Running",
      database := "❌ Not Available",
      database_url := none,
      database_name := none,
      connection_status := "Not Connected",
      collections := [] }
  let response :=
    match db with
    | some h =>
        let r :=
          { response with
            database := "✅ Available",
            database_url := some "✅ Configured",
            database_name := some (match h.name with
              | some n => n
              | none => "✅ Connected"),
            connection_status := "Connected" }
        match h.list_collection_names with
        | Except.ok cols =>
            { r with collections := cols.take 10,
                     database := "✅ Connected & Working" }
        | Except.error e =>
            { r with database := "⚠️  Connected but Error: " ++ e.take 50 }
    | none => { response with database := "⚠️  Available but not initialized" }
  { response with
    database_url :=
      some (if python_truthy database_url_env then "✅ Set" else "❌ Not Set"),
    database_name :=
      some (if python_truthy database_name_env then "✅ Set" else "❌ Not Set") }

/-! Concrete adapters and payloads used by the witness theorems. -/

/-- A sample validated payload, as in the spec scenario. -/
def sample_payload : DemoRequestIn := ⟨"a@b.com", some "Ada", none, none⟩

/-- An adapter create operation that always succeeds with id "abc123". -/
def ok_create : String → DemoDoc → Except String String :=
  fun _ _ => Except.ok "abc123"

/-- An adapter create operation forced to raise "disk full". -/
def disk_full_create : String → DemoDoc → Except String String :=
  fun _ _ => Except.error "disk full"

/-- A live handle whose operations succeed. -/
def good_handle : DbHandle :=
  { name := some "testdb",
    count_documents := fun _ => Except.ok 7,
    list_collection_names := Except.ok ["a", "b", "c"] }

/-- A live handle whose listing operation raises "boom". -/
def bad_handle : DbHandle :=
  { name := none,
    count_documents := fun _ => Except.error "down",
    list_collection_names := Except.error "boom" }

/-! Claim theorems. -/

/-- C1: for every validated input whose persistence call succeeds and
returns an identifier, `create_demo_request` returns an output consisting
of exactly that identifier as `id` plus the input fields `email`, `name`
and `company` unchanged; `message` is omitted from the output because
`DemoRequestOut` has no such field. -/
theorem claim1_success_echoes_fields
    (create_document : String → DemoDoc → Except String String)
    (payload : DemoRequestIn) (i : String)
    (h : create_document "demorequest" (model_dump payload) = Except.ok i) :
    (create_demo_request create_document payload).response =
      ApiResponse.success ⟨i, payload.email, payload.name, payload.company⟩ := by
  simp [create_demo_request, h]

/-- C1 witness: a concrete adapter returning id "abc123" on the sample
payload. -/
theorem claim1_witness :
    (create_demo_request ok_create sample_payload).response =
      ApiResponse.success ⟨"abc123", "a@b.com", some "Ada", none⟩ :=
  claim1_success_echoes_fields ok_create sample_payload "abc123" rfl

/-- C2: for every validated input, if the create operation raises with
message `e`, `create_demo_request` responds with status 500 whose detail
is exactly the adapter error message `e`. -/
theorem claim2_error_surfaced_as_500
    (create_document : String → DemoDoc → Except String String)
    (payload : DemoRequestIn) (e : String)
    (h : create_document "demorequest" (model_dump payload) = Except.error e) :
    (create_demo_request create_document payload).response =
      ApiResponse.httpError 500 e := by
  simp [create_demo_request, h]

/-- C2 witness: an adapter forced to raise "disk full" yields a 500 whose
detail is "disk full" (so in particular contains it). -/
theorem claim2_witness :
    (create_demo_request disk_full_create sample_payload).response =
      ApiResponse.httpError 500 "disk full" :=
  claim2_error_surfaced_as_500 disk_full_create sample_payload "disk full" rfl

/-- C9: when importing the database module failed, the adapter handle is
`None` and the fallback create operation unconditionally raises, so
`create_demo_request` returns status 500 with detail exactly
"Database not available. Check DATABASE_URL and DATABASE_NAME env vars."
on every validated input. -/
theorem claim9_fallback_always_500 (payload : DemoRequestIn) :
    fallback_db = none ∧
    (create_demo_request fallback_create_document payload).response =
      ApiResponse.httpError 500
        "Database not available. Check DATABASE_URL and DATABASE_NAME env vars." :=
  ⟨rfl, rfl⟩

/-- C9 witness: the fallback path at the sample payload. -/
theorem claim9_witness :
    (create_demo_request fallback_create_document sample_payload).response =
      ApiResponse.httpError 500
        "Database not available. Check DATABASE_URL and DATABASE_NAME env vars." :=
  (claim9_fallback_always_500 sample_payload).2

/-- C4: `health` is a total function (it never raises); `status` is "ok"
and `version` is "1.0.0" in every call; `database` is "unavailable" iff the
adapter handle is absent and "available" otherwise; and the result never
depends on the handle operations — no call to the store is made. -/
theorem claim4_health_reports_handle_presence (db : Option DbHandle) :
    (health db).status = "ok" ∧
    (health db).version = "1.0.0" ∧
    ((health db).database = "unavailable" ↔ db = none) ∧
    ((health db).database = "available" ↔ db ≠ none) ∧
    (∀ h1 h2 : DbHandle, health (some h1) = health (some h2)) := by
  refine ⟨rfl, rfl, ?_, ?_, fun h1 h2 => rfl⟩ <;> cases db <;> simp [health]

/-- C4 witness: with the handle absent, `database` is "unavailable". -/
theorem claim4_witness :
    (health (none : Option DbHandle)).database = "unavailable" :=
  ((claim4_health_reports_handle_presence none).2.2.1).mpr rfl

/-- C3: `get_metrics` is total (no error propagates) and always returns
the 4 baseline entries first, in their fixed order; with a present handle
and a successful count it returns exactly 5 entries, the live-count metric
last; with a failing count (or no handle) exactly the 4 baseline
entries. -/
theorem claim3_metrics_baseline_and_live (db : Option DbHandle) :
    (∃ rest, (get_metrics db).metrics = base_metrics ++ rest) ∧
    base_metrics.length = 4 ∧
    (∀ h n, db = some h → h.count_documents "demorequest" = Except.ok n →
      (get_metrics db).metrics =
        base_metrics ++ [⟨"Demo Requests", MetricValue.num n, "total received"⟩] ∧
      (get_metrics db).metrics.length = 5) ∧
    (∀ h e, db = some h → h.count_documents "demorequest" = Except.error e →
      (get_metrics db).metrics = base_metrics) ∧
    (db = none → (get_metrics db).metrics = base_metrics) := by
  refine ⟨?_, rfl, ?_, ?_, ?_⟩
  · cases db with
    | none => exact ⟨[], by simp [get_metrics]⟩
    | some h =>
        cases hc : h.count_documents "demorequest" with
        | ok n =>
            exact ⟨[⟨"Demo Requests", MetricValue.num n, "total received"⟩],
              by simp [get_metrics, hc]⟩
        | error e => exact ⟨[], by simp [get_metrics, hc]⟩
  · rintro h n rfl hc
    refine ⟨by simp [get_metrics, hc], ?_⟩
    simp [get_metrics, hc, base_metrics]
  · rintro h e rfl hc
    simp [get_metrics, hc]
  · rintro rfl
    simp [get_metrics]

/-- C3 witness: a live handle whose count succeeds with 7 yields the
baseline plus the live metric last. -/
theorem claim3_witness :
    (get_metrics (some good_handle)).metrics =
      base_metrics ++ [⟨"Demo Requests", MetricValue.num 7, "total received"⟩] :=
  ((claim3_metrics_baseline_and_live (some good_handle)).2.2.1
    good_handle 7 rfl rfl).1

/-- C5: for every inbound payload whose email is malformed — empty, with
no "@", or with no dot in the domain part after the "@" — the Validation
Layer rejects with a validation error naming the "email" field before the
handler runs, and no persistence call is attempted for any adapter. -/
theorem claim5_malformed_email_rejected_before_write
    (create_document : String → DemoDoc → Except String String)
    (raw : RawDemoRequest)
    (h : raw.email = "" ∨
         raw.email.toList.contains '@' = false ∨
         ((raw.email.toList.dropWhile (fun c => c != '@')).tail).contains '.'
           = false) :
    (post_demo_requests create_document raw).response =
      ApiResponse.validationError "email" ∧
    (post_demo_requests create_document raw).calls = [] := by
  have hv : is_valid_email raw.email = false := by
    simp only [is_valid_email]
    rcases h with h | h | h
    · rw [h]; decide
    · rw [h]; simp only [Bool.false_and]
    · rw [h]; simp only [Bool.and_false, Bool.false_and]
  constructor <;> simp [post_demo_requests, validate_demo_request, hv]

/-- C5 witness: the spec scenario payload with email "not-an-email"
(no "@") is rejected with no adapter call, even with a working adapter. -/
theorem claim5_witness :
    (post_demo_requests ok_create ⟨"not-an-email", none, none, none⟩).response =
      ApiResponse.validationError "email" ∧
    (post_demo_requests ok_create ⟨"not-an-email", none, none, none⟩).calls
      = [] :=
  claim5_malformed_email_rejected_before_write ok_create
    ⟨"not-an-email", none, none, none⟩ (Or.inr (Or.inl (by decide)))

/-- C6: `create_demo_request` is atomic. A success response exists exactly
when the create operation succeeded; every success response carries the id
the adapter returned and is accompanied by exactly the one fully written
document; every error response is accompanied by no written document at
all. -/
theorem claim6_write_atomicity
    (create_document : String → DemoDoc → Except String String)
    (payload : DemoRequestIn) :
    ((∃ i, create_document "demorequest" (model_dump payload) = Except.ok i) ↔
      (∃ out, (create_demo_request create_document payload).response =
        ApiResponse.success out)) ∧
    (∀ out, (create_demo_request create_document payload).response =
        ApiResponse.success out →
      create_document "demorequest" (model_dump payload) = Except.ok out.id ∧
      (create_demo_request create_document payload).written =
        [("demorequest", model_dump payload)]) ∧
    (∀ s e, (create_demo_request create_document payload).response =
        ApiResponse.httpError s e →
      (create_demo_request create_document payload).written = []) := by
  rcases hc : create_document "demorequest" (model_dump payload) with e | i
  · refine ⟨⟨?_, ?_⟩, ?_, ?_⟩
    · rintro ⟨i, hi⟩; simp at hi
    · rintro ⟨out, hout⟩; simp [create_demo_request, hc] at hout
    · intro out hout; simp [create_demo_request, hc] at hout
    · intro s e' _; simp [create_demo_request, hc]
  · refine ⟨⟨?_, ?_⟩, ?_, ?_⟩
    · exact fun _ => ⟨⟨i, payload.email, payload.name, payload.company⟩,
        by simp [create_demo_request, hc]⟩
    · exact fun _ => ⟨i, rfl⟩
    · intro out hout
      simp [create_demo_request, hc] at hout
      subst hout
      exact ⟨rfl, by simp [create_demo_request, hc]⟩
    · intro s e hse; simp [create_demo_request, hc] at hse

/-- C6 witness: with the concrete succeeding adapter, the success response
carries the adapter id and exactly the one written document. -/
theorem claim6_witness :
    ok_create "demorequest" (model_dump sample_payload) =
      Except.ok (DemoRequestOut.id ⟨"abc123", "a@b.com", some "Ada", none⟩) ∧
    (create_demo_request ok_create sample_payload).written =
      [("demorequest", model_dump sample_payload)] :=
  (claim6_write_atomicity ok_create sample_payload).2.1
    ⟨"abc123", "a@b.com", some "Ada", none⟩ rfl

/-- C7 counterexample: DATABASE_URL present in the environment with the
empty string as value, yet `test_database` reports the flag as
"❌ Not Set" — `os.getenv` returns "" which is falsy in Python, so the
flag reflects truthiness, not presence. -/
theorem claim7_counterexample :
    (some "" : Option String).isSome = true ∧
    (test_database (some "") (some "x") none).database_url =
      some "❌ Not Set" :=
  ⟨rfl, rfl⟩

/-- C7 amended: in every `test_database` response, each of the two
environment flags is "✅ Set" exactly when the corresponding environment
variable is present with a non-empty value (Python truthiness of the
`os.getenv` result), and "❌ Not Set" otherwise, independently of the
adapter handle state. -/
theorem claim7_env_flags_reflect_truthiness
    (u n : Option String) (db : Option DbHandle) :
    (test_database u n db).database_url =
      some (if python_truthy u then "✅ Set" else "❌ Not Set") ∧
    (test_database u n db).database_name =
      some (if python_truthy n then "✅ Set" else "❌ Not Set") :=
  ⟨rfl, rfl⟩

/-- C7 witness: a truthy DATABASE_URL and an absent DATABASE_NAME with no
adapter handle. -/
theorem claim7_witness :
    (test_database (some "mongodb://x") none (some good_handle)).database_url
      = some "✅ Set" ∧
    (test_database (some "mongodb://x") none (some good_handle)).database_name
      = some "❌ Not Set" :=
  claim7_env_flags_reflect_truthiness (some "mongodb://x") none
    (some good_handle)

/-- C8: `test_database` is a total function (never propagates an error,
always yields a report); the backend sub-check is always "✅ Running"; the
collections list never exceeds 10 entries, and on a successful listing it
is exactly the first 10 names; a listing failure is downgraded to a
descriptive value while the other sub-checks (connection status, env
flags) are still computed. -/
theorem claim8_diagnostics_defensive
    (u n : Option String) (db : Option DbHandle) :
    (test_database u n db).backend = "✅ Running" ∧
    (test_database u n db).collections.length ≤ 10 ∧
    (∀ h cols, db = some h → h.list_collection_names = Except.ok cols →
      (test_database u n db).collections = cols.take 10 ∧
      (test_database u n db).database = "✅ Connected & Working") ∧
    (∀ h e, db = some h → h.list_collection_names = Except.error e →
      (test_database u n db).database =
        "⚠️  Connected but Error: " ++ e.take 50 ∧
      (test_database u n db).connection_status = "Connected" ∧
      (test_database u n db).database_url =
        some (if python_truthy u then "✅ Set" else "❌ Not Set")) := by
  refine ⟨?_, ?_, ?_, ?_⟩
  · cases db with
    | none => rfl
    | some h => cases hl : h.list_collection_names <;> simp [test_database, hl]
  · cases db with
    | none => simp [test_database]
    | some h =>
        cases hl : h.list_collection_names with
        | ok cols => simp [test_database, hl]
        | error e => simp [test_database, hl]
  · rintro h cols rfl hl
    constructor <;> simp [test_database, hl]
  · rintro h e rfl hl
    refine ⟨?_, ?_, rfl⟩ <;> simp [test_database, hl]

/-- C8 witness: a handle whose listing raises "boom" still yields a full
report with the downgraded database value, and a successful listing is
truncated to at most 10 names. -/
theorem claim8_witness :
    (test_database none none (some bad_handle)).database =
      "⚠️  Connected but Error: " ++ String.take "boom" 50 ∧
    (test_database none none (some bad_handle)).connection_status =
      "Connected" ∧
    (test_database none none (some bad_handle)).database_url =
      some "❌ Not Set" :=
  (claim8_diagnostics_defensive none none (some bad_handle)).2.2.2
    bad_handle "boom" rfl rfl

/-- C10: with the adapter handle absent, `test_database` reports the
database sub-check as "⚠️  Available but not initialized", while the
connection status stays "Not Connected" and the collections list stays
empty. -/
theorem claim10_absent_handle_branch (u n : Option String) :
    (test_database u n none).database = "⚠️  Available but not initialized" ∧
    (test_database u n none).connection_status = "Not Connected" ∧
    (test_database u n none).collections = ([] : List String) :=
  ⟨rfl, rfl, rfl⟩

/-- C10 witness: the absent-handle branch at a concrete environment. -/
theorem claim10_witness :
    (test_database (some "u") (some "n") none).database =
      "⚠️  Available but not initialized" ∧
    (test_database (some "u") (some "n") none).connection_status =
      "Not Connected" ∧
    (test_database (some "u") (some "n") none).collections =
      ([] : List String) :=
  claim10_absent_handle_branch (some "u") (some "n")

end Backend
